import Mathlib

/-!
Verification of the stocklyzer financial computation layer.

The Python source represents money with `decimal.Decimal`; all operations the
development touches (subtraction, multiplication by 100, division, `quantize`)
are modelled over `ℚ`, with `quantize` embedded as explicit round-half-even
(Python's default `ROUND_HALF_EVEN` context) to a fixed number of decimal
places.
-/

namespace Stocklyzer

/-- Round a rational to the nearest integer, ties going to the even integer.
This is Python `decimal`'s default `ROUND_HALF_EVEN`. -/
def roundHalfEven (x : ℚ) : ℤ :=
  let n := Int.floor x
  let r := x - (n : ℚ)
  if r < 1/2 then n
  else if 1/2 < r then n + 1
  else if n % 2 = 0 then n else n + 1

/-- `Decimal.quantize(Decimal('0.01'))`: round to 2 decimal places, half-even. -/
def quantize2 (x : ℚ) : ℚ := (roundHalfEven (x * 100) : ℚ) / 100

/-- `Decimal.quantize(Decimal('0.1'))`: round to 1 decimal place, half-even. -/
def quantize1 (x : ℚ) : ℚ := (roundHalfEven (x * 10) : ℚ) / 10

/-- `FinancialPeriod` (src/stocklyzer/domain/models.py, lines 39-48): one
reporting period's fundamentals.  Dates are modelled as integers (days); the
five monetary fields and `shares_outstanding` are nullable exactly as in the
dataclass.  These are the only attributes the dataclass declares. -/
structure FinancialPeriod where
  date : ℤ
  total_revenue : Option ℚ := none
  net_income : Option ℚ := none
  total_assets : Option ℚ := none
  total_liabilities : Option ℚ := none
  total_equity : Option ℚ := none
  shares_outstanding : Option ℤ := none
deriving Repr, DecidableEq

/-- The body of `FinancialPeriod.__post_init__` applied to one monetary field:
convert to millions if the value is large (`value > 1_000_000`), then
`quantize(Decimal('0.01'))`. -/
def normalizeMonetary (v : ℚ) : ℚ :=
  let v := if v > 1000000 then v / 1000000 else v
  quantize2 v

/-- Constructing a `FinancialPeriod`: the dataclass `__init__` followed by
`__post_init__`, which normalizes the five monetary fields
(models.py, lines 50-59). -/
def mkFinancialPeriod (date : ℤ) (total_revenue net_income total_assets
    total_liabilities total_equity : Option ℚ)
    (shares_outstanding : Option ℤ) : FinancialPeriod :=
  { date := date
    total_revenue := total_revenue.map normalizeMonetary
    net_income := net_income.map normalizeMonetary
    total_assets := total_assets.map normalizeMonetary
    total_liabilities := total_liabilities.map normalizeMonetary
    total_equity := total_equity.map normalizeMonetary
    shares_outstanding := shares_outstanding }

/-- One iteration of the loop in `FinancialHistory._calculate_growth_rates`
(models.py, lines 93-101): `current` is the metric of the more recent period
`periods[i]`, `previous` the metric of the older `periods[i+1]`. -/
def growthPair (current previous : Option ℚ) : Option ℚ :=
  match current, previous with
  | some c, some p => if p ≠ 0 then some (quantize1 ((c - p) / p * 100)) else none
  | _, _ => none

/-- `FinancialHistory._calculate_growth_rates` (models.py, lines 86-103): with
fewer than 2 periods the result is `[]`; otherwise the loop pairs
`periods[i]` (current, more recent) with `periods[i+1]` (previous, older) for
`i` in `[0, n-2]`.  The `metric` argument embeds the `getattr(period, metric)`
field selection. -/
def calcGrowthRates (periods : List FinancialPeriod)
    (metric : FinancialPeriod → Option ℚ) : List (Option ℚ) :=
  let vals := periods.map metric
  if periods.length < 2 then []
  else List.zipWith growthPair vals vals.tail

/-- `FinancialHistory` (models.py, lines 62-84): period collections ordered
most-recent-first. -/
structure FinancialHistory where
  annual_periods : List FinancialPeriod := []
  quarterly_periods : List FinancialPeriod := []

/-- `FinancialHistory.get_revenue_growth` (models.py, lines 68-71). -/
def FinancialHistory.getRevenueGrowth (h : FinancialHistory)
    (period_type : String) : List (Option ℚ) :=
  calcGrowthRates
    (if period_type = "annual" then h.annual_periods else h.quarterly_periods)
    (fun p => p.total_revenue)

/-- `PriceRange` (models.py, lines 106-113). -/
structure PriceRange where
  week_52_low : ℚ
  week_52_high : ℚ
  day_low : ℚ
  day_high : ℚ
deriving Repr, DecidableEq

/-- `PriceRange.__post_init__` (models.py, lines 115-126): validate first
(raising `ValueError` on violation), then quantize each price to 2 decimal
places.  Construction is modelled as `Except` with the raised message. -/
def mkPriceRange (week_52_low week_52_high day_low day_high : ℚ) :
    Except String PriceRange :=
  if week_52_low ≥ week_52_high then
    .error "52-week low must be less than 52-week high"
  else if day_low > day_high then
    .error "Day low must be less than or equal to day high"
  else
    .ok { week_52_low := quantize2 week_52_low
          week_52_high := quantize2 week_52_high
          day_low := quantize2 day_low
          day_high := quantize2 day_high }

/-- Whether an `Except` construction raised. -/
def exceptIsError : Except String PriceRange → Bool
  | .error _ => true
  | .ok _ => false

/-- `PriceRange.calculate_position_in_range` (models.py, lines 128-134). -/
def calculatePositionInRange (pr : PriceRange) (current_price : ℚ) : ℚ :=
  if pr.week_52_high ≤ pr.week_52_low then 1/2
  else
    max 0 (min 1 ((current_price - pr.week_52_low) /
      (pr.week_52_high - pr.week_52_low)))

/-- Python `str.lower()` as used on the ASCII period names. -/
def strLower (s : String) : String := String.mk (s.data.map Char.toLower)

/-- `GrowthCalculator._period_to_years` (utils/calculations.py, lines 49-57):
a dict lookup with default 1 applied to `period.lower()`. -/
def periodToYears (period : String) : ℕ :=
  let period_map : List (String × ℕ) := [("1y", 1), ("2y", 2), ("5y", 5), ("10y", 10)]
  (period_map.lookup (strLower period)).getD 1

/-- `GrowthCalculator.calculate_growth` (utils/calculations.py, lines 15-47).
`histStart`/`histEnd` are the fetched series as (date, close) rows, earliest
row first, dates in days; `now` is `datetime.now()` in the same scale.
`None` paths (empty series, insufficient history, non-positive start price)
become `none`. -/
def calculateGrowth (histStart histEnd : List (ℚ × ℚ)) (now : ℚ)
    (period : String) : Option ℚ :=
  match histStart, histEnd.getLast? with
  | [], _ => none
  | _, none => none
  | (actual_start_date, start_price) :: _, some (_, end_price) =>
    let required_years : ℚ := (periodToYears period : ℚ)
    let required_date := now - required_years * 365 * (8/10)
    if required_date < actual_start_date then none
    else if start_price ≤ 0 then none
    else some ((end_price - start_price) / start_price * 100)

/-- One reporting period as seen by `DiscountedCashFlow._get_cost_of_debt`
(services/valuations/dcf.py): the interest-expense rows of the income
statement ("Interest Expense") and cash-flow statement ("Interest Paid
Supplemental Data"), the balance-sheet debt rows, and the tax rows; a `none`
field is a missing or NaN row. -/
structure DcfPeriod where
  finInterestExpense : Option ℚ := none
  cfInterestExpense : Option ℚ := none
  longTermDebt : Option ℚ := none
  currentDebt : Option ℚ := none
  totalDebt : Option ℚ := none
  pretaxIncome : Option ℚ := none
  taxProvision : Option ℚ := none
deriving Repr, DecidableEq

/-- `DiscountedCashFlow._get_total_debt` (dcf.py, lines 50-57): long-term +
current debt when both present, else the "Total Debt" aggregate (absence of
which raises, modelled as `none`). -/
def getTotalDebt (p : DcfPeriod) : Option ℚ :=
  match p.longTermDebt, p.currentDebt with
  | some l, some c => some (l + c)
  | _, _ => p.totalDebt

/-- Interest-expense resolution inside `_get_cost_of_debt` (dcf.py, lines
69-78): income-statement field first, cash-flow fallback second, else the
period is skipped. -/
def resolveInterestExpense (p : DcfPeriod) : Option ℚ :=
  match p.finInterestExpense with
  | some v => some v
  | none => p.cfInterestExpense

/-- `DiscountedCashFlow._get_tax_rate` (dcf.py, lines 105-109): divides the
tax provision by pretax income.  A missing row raises `KeyError` and a zero
pretax income raises `decimal.DivisionByZero`; both raising paths are
modelled as `none`. -/
def getTaxRate (p : DcfPeriod) : Option ℚ :=
  match p.pretaxIncome, p.taxProvision with
  | some pi, some te => if pi = 0 then none else some (te / pi)
  | _, _ => none

/-- `DiscountedCashFlow._get_cost_of_debt` (dcf.py, lines 59-91): scan the
financial-statement columns (most recent first); skip a period with no usable
interest expense; at the first period with one, compute
`interest_expense / total_debt * (1 - tax_rate)` from that same period and
return.  Any raising path inside that computation (missing debt, zero debt,
missing tax rows) aborts the whole calculation (the exception propagates),
modelled as `none` without scanning older periods. -/
def getCostOfDebt : List DcfPeriod → Option ℚ
  | [] => none
  | p :: rest =>
    match resolveInterestExpense p with
    | none => getCostOfDebt rest
    | some interest_expense =>
      match getTotalDebt p with
      | none => none
      | some total_debt =>
        if total_debt = 0 then none
        else
          match getTaxRate p with
          | none => none
          | some tax_rate => some (interest_expense / total_debt * (1 - tax_rate))

/-- The consumer-level limited-history suppression in
`display_stock_info` (src/cli/commands/ticker.py, lines 139-150), applied in
program order to the fetched 2-, 5- and 10-year growth values: first null the
5y/10y pair when both are present and within 0.01 of each other, then null all
three when the (possibly already nulled) 5y value and the 2y value are both
present and within 0.01. -/
def suppressLimitedHistory (growth_2y growth_5y growth_10y : Option ℚ) :
    Option ℚ × Option ℚ × Option ℚ :=
  let step1 :
      Option ℚ × Option ℚ :=
    match growth_5y, growth_10y with
    | some a, some b => if |a - b| < 1/100 then (none, none) else (some a, some b)
    | _, _ => (growth_5y, growth_10y)
  match growth_2y, step1.1 with
  | some a, some b =>
    if |a - b| < 1/100 then (none, none, none) else (growth_2y, step1.1, step1.2)
  | _, _ => (growth_2y, step1.1, step1.2)

/-- The attribute names the `FinancialPeriod` dataclass declares
(models.py, lines 39-48) — exactly its `__init__` keyword parameters. -/
def financialPeriodFieldNames : List String :=
  ["date", "total_revenue", "net_income", "total_assets",
   "total_liabilities", "total_equity", "shares_outstanding"]

/-- The keyword arguments `YFinanceStockService._calculate_financial_history`
passes to `FinancialPeriod(...)` (stock_service.py, lines 312-325). -/
def servicePeriodKwargs : List String :=
  ["date", "total_revenue", "net_income", "total_assets",
   "total_liabilities", "total_equity", "shares_outstanding",
   "operating_cash_flow", "investing_cash_flow", "financing_cash_flow",
   "changes_in_cash", "free_cash_flow"]

/-- Python call semantics for the dataclass: a keyword argument that is not a
declared field raises `TypeError` (unexpected keyword argument). -/
def constructFinancialPeriodKw (kwargs : List String) : Except String Unit :=
  match kwargs.find? (fun k => !(financialPeriodFieldNames.contains k)) with
  | some k => .error ("TypeError: __init__ got an unexpected keyword argument " ++ k)
  | none => .ok ()

/-- Free-cash-flow derivation in `_calculate_financial_history`
(stock_service.py, lines 298-310): the direct "Free Cash Flow" row when
present; otherwise, when operating cash flow is known, operating cash flow +
capital expenditure if a capex row is known, else null; null when operating
cash flow is itself unknown. -/
def deriveFreeCashFlow (directFcf operatingCashFlow capex : Option ℚ) : Option ℚ :=
  match directFcf with
  | some f => some f
  | none =>
    match operatingCashFlow with
    | none => none
    | some ocf =>
      match capex with
      | some c => some (ocf + c)
      | none => none

/-- A concrete three-period revenue history (most recent first, values in
millions): 100, 200, 400. -/
def demoPeriods : List FinancialPeriod :=
  [{ date := 2, total_revenue := some 100 },
   { date := 1, total_revenue := some 200 },
   { date := 0, total_revenue := some 400 }]

/-- The revenue metric selector, `getattr(period, "total_revenue")`. -/
def revenueMetric : FinancialPeriod → Option ℚ := fun p => p.total_revenue

/-- The normalization behaviour claimed by the spec, for comparison with
`normalizeMonetary`: scale down whenever the raw MAGNITUDE exceeds 1,000,000. -/
def claimedNormalizeMonetary (v : ℚ) : ℚ :=
  if |v| > 1000000 then quantize2 (v / 1000000) else quantize2 v

/-- The `PriceRange` value produced by `mkPriceRange 99.999 100.001 100 100`:
both 52-week bounds quantize to 100.00. -/
def degeneratePriceRange : PriceRange :=
  { week_52_low := 100, week_52_high := 100, day_low := 100, day_high := 100 }

/-- Most recent DCF period: reports debt but no interest expense in either
statement. -/
def dcfPeriodA : DcfPeriod :=
  { longTermDebt := some 30000000000, currentDebt := some 10000000000,
    pretaxIncome := some 10000000000, taxProvision := some 1000000000 }

/-- Prior DCF period: interest expense 800,000,000 and debt totalling
20,000,000,000 (with a zero tax provision so the after-tax factor is 1). -/
def dcfPeriodB : DcfPeriod :=
  { finInterestExpense := some 800000000,
    longTermDebt := some 15000000000, currentDebt := some 5000000000,
    pretaxIncome := some 10000000000, taxProvision := some 0 }

/-- An even older DCF period with a usable pair of its own; it must never be
reached. -/
def dcfPeriodC : DcfPeriod :=
  { finInterestExpense := some 999, longTermDebt := some 1, currentDebt := some 1,
    pretaxIncome := some 1, taxProvision := some 0 }

/-- A two-period history whose revenue goes from −100 (older) to −50 (newer):
the sign-sensitive case for the growth denominator. -/
def negPeriods : List FinancialPeriod :=
  [{ date := 1, total_revenue := some (-50) },
   { date := 0, total_revenue := some (-100) }]

/-- Claim C4 counterexample: the scaling threshold in
`FinancialPeriod.__post_init__` is the SIGNED comparison `value > 1_000_000`,
not a magnitude test: a net income of −2,000,000 raw currency units has
magnitude above the threshold, yet the stored value stays −2,000,000.00
instead of the −2.00 the claim's magnitude rule would give. -/
theorem normalize_magnitude_counterexample :
    normalizeMonetary (-2000000) = -2000000 ∧
    claimedNormalizeMonetary (-2000000) = -2 ∧
    (mkFinancialPeriod 0 none (some (-2000000)) none none none none).net_income =
      some (-2000000) ∧
    (-2000000 : ℚ) ≠ -2 := by
  refine ⟨?_, ?_, ?_, by norm_num⟩
  · norm_num [normalizeMonetary, quantize2, roundHalfEven]
  · norm_num [claimedNormalizeMonetary, quantize2, roundHalfEven]
  · norm_num [mkFinancialPeriod, normalizeMonetary, quantize2, roundHalfEven]

/-- Claim C4 (amended): a non-null monetary field of a constructed
`FinancialPeriod` is stored as millions rounded to 2 decimal places, where a
value is divided by 1,000,000 exactly when it is strictly greater than
+1,000,000 under the signed comparison (so large-magnitude negative values
are never scaled); e.g. total_revenue = 9,500,000 becomes 9.50 and
total_revenue = 94,930 stays 94,930.00. -/
theorem normalize_signed_threshold :
    (∀ v : ℚ, normalizeMonetary v =
      quantize2 (if v > 1000000 then v / 1000000 else v)) ∧
    (mkFinancialPeriod 0 (some 9500000) none none none none none).total_revenue =
      some (19/2) ∧
    (mkFinancialPeriod 0 (some 94930) none none none none none).total_revenue =
      some 94930 ∧
    (mkFinancialPeriod 0 none (some (-9500000)) none none none none).net_income =
      some (-9500000) := by
  refine ⟨fun v => rfl, ?_, ?_, ?_⟩ <;>
    norm_num [mkFinancialPeriod, normalizeMonetary, quantize2, roundHalfEven]

/-- Claim C5 (code_bug): `GrowthCalculator._period_to_years` maps 1y→1, 2y→2,
5y→5 and 10y→10, but its dict has no "3y" entry, so a "3y" request falls back
to the default year count 1 — not the year count 3 the claim (and the
caller-level 3-year support) requires. -/
theorem periodToYears_missing_3y :
    periodToYears "1y" = 1 ∧ periodToYears "2y" = 2 ∧ periodToYears "5y" = 5 ∧
    periodToYears "10y" = 10 ∧ periodToYears "3y" = 1 ∧ (1 : ℕ) ≠ 3 := by
  exact ⟨rfl, rfl, rfl, rfl, rfl, by norm_num⟩

/-- Claim C8 (code_bug): applying the consumer-level suppression to
`growth_2y = growth_5y = growth_10y = 1.00` — the very limited-history
situation the cascade is for — nulls only the 5- and 10-year values: the
5y≈10y rule runs first and nulls `growth_5y`, so the 2y≈5y cascade sees a
null 5-year value, is skipped, and the 2-year value survives, contrary to the
claim that all three are nulled. -/
theorem suppress_cascade_skipped_when_all_equal :
    suppressLimitedHistory (some 1) (some 1) (some 1) = (some 1, none, none) ∧
    (some (1 : ℚ)) ≠ none := by
  refine ⟨?_, by simp⟩
  have h : |(1:ℚ) - 1| < 1/100 := by norm_num
  unfold suppressLimitedHistory
  simp only [if_pos h]

/-- Claim C3 (code_bug): the `FinancialPeriod` dataclass declares none of the
five cash-flow attributes, so the service's constructor call — which passes
them as keyword arguments — raises `TypeError` and no constructed record
carries them; the service's own free-cash-flow derivation does follow the
claimed rule (direct field first, else operating cash flow + capex when both
known, else null). -/
theorem financialPeriod_lacks_cash_flow_fields :
    constructFinancialPeriodKw servicePeriodKwargs =
      .error
        "TypeError: __init__ got an unexpected keyword argument operating_cash_flow" ∧
    financialPeriodFieldNames.contains "operating_cash_flow" = false ∧
    financialPeriodFieldNames.contains "free_cash_flow" = false ∧
    (∀ ocf capex : ℚ,
      deriveFreeCashFlow none (some ocf) (some capex) = some (ocf + capex)) ∧
    (∀ ocf : ℚ, deriveFreeCashFlow none (some ocf) none = none) ∧
    (∀ (f : ℚ) (ocf capex : Option ℚ),
      deriveFreeCashFlow (some f) ocf capex = some f) := by
  exact ⟨rfl, rfl, rfl, fun _ _ => rfl, fun _ => rfl, fun _ _ _ => rfl⟩

/-- Claim C9 (confirmed): `PriceRange` construction raises exactly when
`week_52_low ≥ week_52_high` (strict inequality required) or
`day_low > day_high`; in particular a 52-week low and high both equal to 50
raise at construction. -/
theorem priceRange_validation :
    (∀ lo hi dlo dhi : ℚ,
        exceptIsError (mkPriceRange lo hi dlo dhi) =
          (decide (lo ≥ hi) || decide (dlo > dhi))) ∧
    exceptIsError (mkPriceRange 50 50 40 45) = true := by
  constructor
  · intro lo hi dlo dhi
    unfold mkPriceRange exceptIsError
    by_cases h1 : lo ≥ hi
    · simp [h1]
    · by_cases h2 : dlo > dhi <;> simp [h1, h2]
  · norm_num [mkPriceRange, exceptIsError]

/-- Claim C10 (confirmed): validation precedes quantization, so the inputs
low = 99.999 < high = 100.001 pass the strict check, yet both bounds
quantize to 100.00: the constructed `PriceRange` has equal 52-week bounds and
`calculate_position_in_range` returns the degenerate 0.5 for every current
price. -/
theorem priceRange_degenerate_after_quantize :
    (99999/1000 : ℚ) < 100001/1000 ∧
    mkPriceRange (99999/1000) (100001/1000) 100 100 = .ok degeneratePriceRange ∧
    degeneratePriceRange.week_52_low = degeneratePriceRange.week_52_high ∧
    ∀ current_price : ℚ,
      calculatePositionInRange degeneratePriceRange current_price = 1/2 := by
  refine ⟨by norm_num, ?_, rfl, ?_⟩
  · norm_num [mkPriceRange, quantize2, roundHalfEven, degeneratePriceRange]
  · intro cp
    norm_num [calculatePositionInRange, degeneratePriceRange]

/-- Claim C1 counterexample: `_calculate_growth_rates` divides by the SIGNED
previous value, not its absolute value: for previous = −100, current = −50
the computed growth is −50.0, where the claim requires +50.0. -/
theorem growth_abs_denominator_counterexample :
    calcGrowthRates negPeriods revenueMetric = [some (-50)] ∧
    ((-50 : ℚ) ≠ 50) := by
  constructor
  · norm_num [calcGrowthRates, negPeriods, revenueMetric, growthPair,
      quantize1, roundHalfEven]
  · norm_num

/-- Claim C1 (amended): for every pair of consecutive periods with non-null
metric values where the older value is non-zero, the growth equals
(current − previous) / previous × 100 — the signed previous value as
denominator — rounded to 1 decimal place (half-even); so for previous = −100
and current = −50 the growth is −50.0, not +50.0. -/
theorem growth_formula_signed_denominator :
    ∀ (ps : List FinancialPeriod) (m : FinancialPeriod → Option ℚ) (i : ℕ)
      (c p : ℚ),
      (ps.map m)[i]? = some (some c) → (ps.map m)[i + 1]? = some (some p) →
      p ≠ 0 →
      (calcGrowthRates ps m)[i]? = some (some (quantize1 ((c - p) / p * 100))) := by
  intro ps m i c p hc hp hpne
  have hlen : i + 1 < ps.length := by
    rcases List.getElem?_eq_some.mp hp with ⟨hl, _⟩
    simpa using hl
  simp only [calcGrowthRates]
  rw [if_neg (by omega)]
  rw [List.getElem?_zipWith]
  rw [List.getElem?_tail]
  rw [hc, hp]
  simp [growthPair, hpne]

/-- Witness for claim C1: on the concrete −50/−100 history the growth entry
evaluates to −50.0. -/
theorem growth_formula_signed_denominator_witness :
    (calcGrowthRates negPeriods revenueMetric)[0]? = some (some (-50 : ℚ)) := by
  have h := growth_formula_signed_denominator negPeriods revenueMetric 0
    (-50) (-100) rfl rfl (by norm_num)
  rw [h]
  norm_num [quantize1, roundHalfEven]

/-- Claim C7 (confirmed): the growth series over any period list has length
max(0, n − 1) (Nat subtraction), its entry at index i is the growth from
period i+1 (older) to period i (newer), and reversing the input order changes
the result (shown on a concrete 100/200/400 revenue history). -/
theorem growth_series_shape :
    (∀ (ps : List FinancialPeriod) (m : FinancialPeriod → Option ℚ),
        (calcGrowthRates ps m).length = ps.length - 1) ∧
    (∀ (ps : List FinancialPeriod) (m : FinancialPeriod → Option ℚ) (i : ℕ)
        (c p : Option ℚ),
        (ps.map m)[i]? = some c → (ps.map m)[i + 1]? = some p →
        (calcGrowthRates ps m)[i]? = some (growthPair c p)) ∧
    calcGrowthRates demoPeriods.reverse revenueMetric ≠
      calcGrowthRates demoPeriods revenueMetric := by
  refine ⟨?_, ?_, ?_⟩
  · intro ps m
    simp only [calcGrowthRates]
    split
    · next h => simp only [List.length_nil]; omega
    · next h =>
      rw [List.length_zipWith, List.length_tail, List.length_map]
      exact min_eq_right (Nat.sub_le _ _)
  · intro ps m i c p hc hp
    have hlen : i + 1 < ps.length := by
      rcases List.getElem?_eq_some.mp hp with ⟨hl, _⟩
      simpa using hl
    simp only [calcGrowthRates]
    rw [if_neg (by omega)]
    rw [List.getElem?_zipWith]
    rw [List.getElem?_tail]
    rw [hc, hp]
  · have hfwd : calcGrowthRates demoPeriods revenueMetric =
        [some (-50), some (-50)] := by
      norm_num [calcGrowthRates, demoPeriods, revenueMetric, growthPair,
        quantize1, roundHalfEven]
    have hrev : calcGrowthRates demoPeriods.reverse revenueMetric =
        [some 100, some 100] := by
      norm_num [calcGrowthRates, demoPeriods, revenueMetric, growthPair,
        quantize1, roundHalfEven]
    rw [hfwd, hrev]
    norm_num

/-- Witness for claim C7: on the concrete 100/200/400 history, entry 0 is
the growth from period 1 (older) to period 0 (newer). -/
theorem growth_series_shape_witness :
    (calcGrowthRates demoPeriods revenueMetric)[0]? =
      some (growthPair (some 100) (some 200)) :=
  growth_series_shape.2.1 demoPeriods revenueMetric 0 (some 100) (some 200)
    rfl rfl

/-- Claim C2 (confirmed): `_get_cost_of_debt` skips every leading period with
no usable interest-expense figure (income-statement field and cash-flow
fallback both missing), and at the first period with one uses that same
period's interest expense, total debt and tax rate, ignoring all older
periods entirely. -/
theorem costOfDebt_same_period_pairing :
    ∀ (pre : List DcfPeriod) (p : DcfPeriod) (rest : List DcfPeriod)
      (ie d t : ℚ),
      (∀ q ∈ pre, resolveInterestExpense q = none) →
      resolveInterestExpense p = some ie →
      getTotalDebt p = some d → d ≠ 0 → getTaxRate p = some t →
      getCostOfDebt (pre ++ p :: rest) = some (ie / d * (1 - t)) := by
  intro pre
  induction pre with
  | nil =>
    intro p rest ie d t _ hie hd hdne ht
    simp only [List.nil_append, getCostOfDebt, hie, hd]
    rw [if_neg hdne]
    simp only [ht]
  | cons q qs ih =>
    intro p rest ie d t hpre hie hd hdne ht
    have hq : resolveInterestExpense q = none := hpre q (by simp)
    simp only [List.cons_append, getCostOfDebt, hq]
    exact ih p rest ie d t (fun r hr => hpre r (by simp [hr])) hie hd hdne ht

/-- Witness for claim C2: the most recent period reports debt but no interest
expense; the prior period has interest expense 800,000,000 and debt
15,000,000,000 + 5,000,000,000 = 20,000,000,000, and its own pair is used
(with a zero tax rate): 800,000,000 / 20,000,000,000 = 0.04 = 1/25. -/
theorem costOfDebt_same_period_pairing_witness :
    getCostOfDebt [dcfPeriodA, dcfPeriodB, dcfPeriodC] = some (1/25) := by
  have h := costOfDebt_same_period_pairing [dcfPeriodA] dcfPeriodB [dcfPeriodC]
    800000000 20000000000 0
    (by intro q hq; simp only [List.mem_singleton] at hq; subst hq; rfl)
    rfl
    (by norm_num [getTotalDebt, dcfPeriodB])
    (by norm_num)
    (by norm_num [getTaxRate, dcfPeriodB])
  rw [List.singleton_append] at h
  rw [h]
  norm_num

/-- Claim C6 (confirmed): whenever the earliest date actually present in the
fetched series is more recent than now − period_years × 365 × 0.8 days
(period_years being the mapped year count), `calculate_growth` returns
absent. -/
theorem calculateGrowth_insufficient_history :
    ∀ (actual_start_date start_price : ℚ) (tl histEnd : List (ℚ × ℚ))
      (now : ℚ) (period : String) (lastDate lastClose : ℚ),
      histEnd.getLast? = some (lastDate, lastClose) →
      now - (periodToYears period : ℚ) * 365 * (8/10) < actual_start_date →
      calculateGrowth ((actual_start_date, start_price) :: tl) histEnd now
        period = none := by
  intro d0 p0 tl he now period ld lc hlast hlt
  simp only [calculateGrowth, hlast]
  rw [if_pos hlt]

/-- Witness for claim C6: a 10-year request (cutoff 2920 days) backed by only
3 years (1095 days) of history returns absent. -/
theorem calculateGrowth_insufficient_history_witness :
    calculateGrowth [(2555, 10)] [(3650, 20)] 3650 "10y" = none := by
  have h10 : periodToYears "10y" = 10 := rfl
  have h := calculateGrowth_insufficient_history 2555 10 [] [(3650, 20)]
    3650 "10y" 3650 20 rfl (by rw [h10]; norm_num)
  exact h

end Stocklyzer
